import Mathlib

/-!
Shallow embedding of `logger/logger.go` (package `logger` of
WJQSERVER-STUDIO/go-utils, the `bufio.Writer` revision whose line numbers
the claims cite).

The package's global mutable variables become the fields of an explicit
`LoggerState` record, and every Go function becomes a pure function from
state to state.  Conventions:

* Go `panic` (nil type assertion, nil-pointer dereference, close of a
  closed channel) is `Except.error` with the runtime message; a normal
  return is `Except.ok`.
* `atomic.Value` (`logLevel`) is `Option Int`: `none` until the first
  `Store`, after which `Load().(int)` succeeds.
* The buffered channel `logChannel` is `Option (List logMessage)`
  (`none` = nil channel before `Init`; the list is the FIFO contents,
  head = oldest), with capacity `queueCap` (`defaultBufSize` after
  `Init`).  A non-blocking `select` send appends when the length is
  below capacity and takes the `default` branch otherwise (a nil
  channel always takes `default`).
* `quitChannel` is `Option Bool`: `none` = nil, `some false` = open,
  `some true` = closed.
* The `bufio.Writer` `logWriter` is `Option (List Line)`: `none` when
  the Go pointer is nil, otherwise the lines accepted by `WriteString`
  but not yet flushed to the file.  (The 4096-byte automatic spill of a
  full `bufio` buffer is not modelled; the buffer field is exactly the
  not-yet-flushed suffix, which is precise for lines shorter than the
  buffer size.)
* `os.File` effects: `logFileOpen` says whether the `logFile` handle is
  non-nil; `diskActive` is the contents of the file at the configured
  log path (`none` = no such file); `diskBackups` collects the contents
  of files rotated away by `os.Rename`.  Filesystem success or failure
  of `Init` and of the rotation steps is injected as parameters, since
  those outcomes come from the environment.
* `sync.Pool` traffic is observed through the counters `poolGets` /
  `poolPuts`; `fmt.Fprintf(os.Stderr, ...)` appends to `stderrLog`.
* `time.Now()` is a logical clock `clock`, incremented per formatted
  line; a written line keeps its timestamp and message separately.
-/

namespace GoLogger

/-- Log-level constants of the source (`iota` block): Dump. -/
def LevelDump : Int := 0

/-- Log-level constant Debug. -/
def LevelDebug : Int := 1

/-- Log-level constant Info. -/
def LevelInfo : Int := 2

/-- Log-level constant Warn. -/
def LevelWarn : Int := 3

/-- Log-level constant Error. -/
def LevelError : Int := 4

/-- Log-level constant None (disables logging). -/
def LevelNone : Int := 5

/-- Capacity of the ingress channel and of the `bufio` buffer
(`defaultBufSize = 4096`). -/
def defaultBufSize : Nat := 4096

/-- The `logMessage` struct: a severity and a message string. -/
structure logMessage where
  level : Int
  msg : String
deriving DecidableEq

/-- One formatted log line `"<timestamp> - <msg>\n"`; the timestamp is
the logical clock value at formatting time. -/
structure Line where
  ts : Nat
  msg : String
deriving DecidableEq

/-- Rendering of a `Line` as the Go code formats it
(`fmt.Sprintf("%s - %s\n", now, msg)`). -/
def renderLine (l : Line) : String :=
  toString l.ts ++ " - " ++ l.msg ++ "\n"

/-- The package-level mutable state of `logger.go`. -/
structure LoggerState where
  logLevel : Option Int
  logChannel : Option (List logMessage)
  queueCap : Nat
  quitChannel : Option Bool
  droppedLogs : Int
  poolGets : Nat
  poolPuts : Nat
  logWriter : Option (List Line)
  logFileOpen : Bool
  diskActive : Option (List Line)
  diskBackups : List (List Line)
  stderrLog : List String
  initOnceDone : Bool
  clock : Nat
deriving DecidableEq

/-- The state at process start: every pointer nil, every channel nil,
`logLevel` never stored, `initOnce` unused. -/
def initialState : LoggerState :=
  { logLevel := none
    logChannel := none
    queueCap := 0
    quitChannel := none
    droppedLogs := 0
    poolGets := 0
    poolPuts := 0
    logWriter := none
    logFileOpen := false
    diskActive := none
    diskBackups := []
    stderrLog := []
    initOnceDone := false
    clock := 0 }

/-- The `strings.ToLower` call of `SetLogLevel`, modelled as per-rune
ASCII case folding (all recognized level names are ASCII, where this
coincides with Go's Unicode folding). -/
def goToLower (s : String) : String :=
  String.mk (s.data.map Char.toLower)

/-- The `logLevelMap` table of the source. -/
def logLevelMap (s : String) : Option Int :=
  if s = "dump" then some LevelDump
  else if s = "debug" then some LevelDebug
  else if s = "info" then some LevelInfo
  else if s = "warn" then some LevelWarn
  else if s = "error" then some LevelError
  else if s = "none" then some LevelNone
  else none

/-- `SetLogLevel`: lower-case the name, look it up, store on success,
return the `invalid log level` error otherwise.  The second component is
the returned `error` (`none` = Go nil). -/
def SetLogLevel (st : LoggerState) (level : String) : LoggerState × Option String :=
  let lowered := goToLower level
  match logLevelMap lowered with
  | some lvl => ({ st with logLevel := some lvl }, none)
  | none => (st, some ("invalid log level: " ++ lowered))

/-- `Init`: guarded by `initOnce.Do`.  The environment outcomes are the
parameters: `dirExists` is whether `validateLogFilePath` finds the
parent directory, `openOk` whether `os.OpenFile` succeeds.  On the
successful first call it opens the sink, builds the buffered writer,
stores `LevelDump`, and allocates the channels; any later call runs
nothing and returns nil. -/
def Init (st : LoggerState) (dirExists : Bool) (openOk : Bool) :
    LoggerState × Option String :=
  if st.initOnceDone then (st, none)
  else
    let st := { st with initOnceDone := true }
    if dirExists = false then
      (st, some "invalid log file path: directory does not exist")
    else if openOk = false then
      (st, some "failed to open log file")
    else
      ({ st with
          logFileOpen := true
          diskActive := some []
          logWriter := some []
          logLevel := some LevelDump
          logChannel := some []
          queueCap := defaultBufSize
          quitChannel := some false }, none)

/-- `Log`: load the threshold (`logLevel.Load().(int)` panics when the
value was never stored), filter, take a record from the pool, and do the
non-blocking channel send with the drop path in `default`. -/
def Log (st : LoggerState) (level : Int) (msg : String) :
    Except String LoggerState :=
  match st.logLevel with
  | none =>
      .error "interface conversion: interface {} is nil, not int"
  | some threshold =>
      if level < threshold then
        .ok st
      else
        let st := { st with poolGets := st.poolGets + 1 }
        match st.logChannel with
        | some q =>
            if q.length < st.queueCap then
              .ok { st with logChannel := some (q ++ [⟨level, msg⟩]) }
            else
              .ok { st with
                      droppedLogs := st.droppedLogs + 1
                      stderrLog := st.stderrLog ++
                        ["Log queue full, dropping message: " ++ msg]
                      poolPuts := st.poolPuts + 1 }
        | none =>
            .ok { st with
                    droppedLogs := st.droppedLogs + 1
                    stderrLog := st.stderrLog ++
                      ["Log queue full, dropping message: " ++ msg]
                    poolPuts := st.poolPuts + 1 }

/-- One `logWorker` loop iteration in its receive arm: take the oldest
queued record and hand it to `logWriter.WriteString`.  A nil
`*bufio.Writer` dereference is a panic; with no queued record the
worker blocks, which the sequential model renders as no state change. -/
def logWorkerStep (st : LoggerState) : Except String LoggerState :=
  match st.logChannel with
  | some (m :: rest) =>
      match st.logWriter with
      | none =>
          .error "runtime error: invalid memory address or nil pointer dereference"
      | some buf =>
          .ok { st with
                  logChannel := some rest
                  logWriter := some (buf ++ [⟨st.clock, m.msg⟩])
                  clock := st.clock + 1
                  poolPuts := st.poolPuts + 1 }
  | _ => .ok st

/-- Formatting-and-buffering of a whole list of records, as the drain
loop of `logWorker` performs it: returns the extended buffer and the
advanced clock. -/
def writeAll : List logMessage → List Line → Nat → List Line × Nat
  | [], buf, c => (buf, c)
  | m :: ms, buf, c => writeAll ms (buf ++ [⟨c, m.msg⟩]) (c + 1)

/-- The drain arm of `logWorker` after the quit signal: repeated
non-blocking receives until the channel is empty, writing each record.
A nil writer with a pending record panics, a nil channel or an empty
channel falls through to `default` and returns. -/
def logWorkerDrain (st : LoggerState) : Except String LoggerState :=
  match st.logChannel with
  | none => .ok st
  | some [] => .ok st
  | some (m :: ms) =>
      match st.logWriter with
      | none =>
          .error "runtime error: invalid memory address or nil pointer dereference"
      | some buf =>
          let res := writeAll (m :: ms) buf st.clock
          .ok { st with
                  logChannel := some []
                  logWriter := some res.1
                  clock := res.2
                  poolPuts := st.poolPuts + (m :: ms).length }

/-- The `flush` helper: `logWriter.Flush()` under the mutex when the
writer is non-nil.  Flushing moves the buffered lines into the
underlying open file; with the handle closed the flush reports an
error and the buffer keeps its data. -/
def flush (st : LoggerState) : LoggerState × Option String :=
  match st.logWriter with
  | none => (st, none)
  | some buf =>
      if st.logFileOpen then
        match st.diskActive with
        | some f =>
            ({ st with logWriter := some [], diskActive := some (f ++ buf) }, none)
        | none => (st, some "write error: no active file")
      else (st, some "write error: file already closed")

/-- A flush whose error, if any, is printed to stderr with the given
prefix, as the flush worker and `Close` do. -/
def flushReporting (st : LoggerState) (ctx : String) : LoggerState :=
  match flush st with
  | (s, none) => s
  | (s, some e) => { s with stderrLog := s.stderrLog ++ [ctx ++ e] }

/-- `Close`: `close(quitChannel)` (a nil or already-closed channel
panics), then `wg.Wait()` — under which the flush worker performs its
final flush and the log worker drains the queue — then the final flush,
`logWriter = nil`, `logFile.Close()`, `logFile = nil`. -/
def Close (st : LoggerState) : Except String LoggerState :=
  match st.quitChannel with
  | none => .error "close of nil channel"
  | some true => .error "close of closed channel"
  | some false =>
      match logWorkerDrain { st with quitChannel := some true } with
      | .error e => .error e
      | .ok st2 =>
          let st3 := flushReporting st2 "Error flushing log during shutdown: "
          let st4 := flushReporting st3 "Error flushing log before close: "
          .ok { st4 with logWriter := none, logFileOpen := false }

/-- Which rotation step the environment makes fail (`success` = all
filesystem calls succeed). -/
inductive RotFail
  | atClose
  | atRename
  | atOpen
  | success
deriving DecidableEq

/-- The rename-and-reopen tail of `rotateLogFile`, entered after the
close step: `os.Rename` moves the active file to the backup path, then
`os.OpenFile` installs a fresh sink and a fresh buffered writer. -/
def rotateAfterClose (st : LoggerState) (fail : RotFail) :
    LoggerState × Option String :=
  match fail with
  | .atRename => (st, some "error renaming log file")
  | .atOpen =>
      ({ st with
          diskBackups := st.diskBackups ++ [st.diskActive.getD []]
          diskActive := none }, some "error creating new log file")
  | _ =>
      ({ st with
          diskBackups := st.diskBackups ++ [st.diskActive.getD []]
          diskActive := some []
          logFileOpen := true
          logWriter := some [] }, none)

/-- `rotateLogFile`: under the mutex, close the current handle when it
is non-nil (on close failure return at once, leaving the handle), nil
out both `logFile` and `logWriter` — the buffered lines are not flushed
first — then rename and reopen.  The detached compression goroutine is
outside the rotation itself. -/
def rotateLogFile (st : LoggerState) (fail : RotFail) :
    LoggerState × Option String :=
  if st.logFileOpen then
    match fail with
    | .atClose => (st, some "error closing log file")
    | _ =>
        rotateAfterClose { st with logFileOpen := false, logWriter := none } fail
  else rotateAfterClose st fail

/-- `DumpDroppedLogs`: read the atomic drop counter. -/
def DumpDroppedLogs (st : LoggerState) : Int :=
  st.droppedLogs

/-- One operation of the package API or of its background goroutines,
for reasoning over whole histories. -/
inductive Op
  | opLog (level : Int) (msg : String)
  | opSet (s : String)
  | opInit (dirExists openOk : Bool)
  | opWorker
  | opDrain
  | opFlush
  | opRotate (fail : RotFail)
  | opClose
deriving DecidableEq

/-- Applying one operation; an operation that panics ends the process,
so for state-evolution purposes it contributes no further change. -/
def applyOp (st : LoggerState) : Op → LoggerState
  | .opLog level msg =>
      match Log st level msg with
      | .ok s => s
      | .error _ => st
  | .opSet s => (SetLogLevel st s).1
  | .opInit d o => (Init st d o).1
  | .opWorker =>
      match logWorkerStep st with
      | .ok s => s
      | .error _ => st
  | .opDrain =>
      match logWorkerDrain st with
      | .ok s => s
      | .error _ => st
  | .opFlush => (flush st).1
  | .opRotate fail => (rotateLogFile st fail).1
  | .opClose =>
      match Close st with
      | .ok s => s
      | .error _ => st

/-- A whole history of operations. -/
def applyOps (st : LoggerState) (ops : List Op) : LoggerState :=
  ops.foldl applyOp st

/-- The state right after a successful first `Init`. -/
def readyState : LoggerState :=
  (Init initialState true true).1

deriving instance DecidableEq for Except

/-- Whether a call returned normally (as opposed to panicking). -/
def isOk : Except String LoggerState → Bool
  | .ok _ => true
  | .error _ => false

/-- Successful result of a call, defaulting to `initialState` on a
panic (used only to name intermediate states of concrete traces). -/
def okOr : Except String LoggerState → LoggerState
  | .ok s => s
  | .error _ => initialState

/-- Claim C7: a `Log` call whose severity is strictly below the stored
threshold returns immediately with the state completely unchanged — no
pool traffic, no queue interaction, no drop count, no write. -/
theorem log_below_threshold_is_noop
    (st : LoggerState) (t level : Int) (msg : String)
    (hlvl : st.logLevel = some t) (hlt : level < t) :
    Log st level msg = .ok st := by
  simp [Log, hlvl, hlt]

/-- Witness for C7: an `Info`-filtered logger drops a `Debug` call on
the floor without touching anything. -/
theorem log_below_threshold_is_noop_witness :
    Log { readyState with logLevel := some LevelInfo } LevelDebug "quiet" =
      .ok { readyState with logLevel := some LevelInfo } :=
  log_below_threshold_is_noop _ LevelInfo LevelDebug "quiet" rfl (by decide)

/-- Claim C8: `SetLogLevel` lower-cases its argument; exactly the six
names dump, debug, info, warn, error, none are recognized, a recognized
name stores the matching level and returns nil, and any other string
returns the `invalid log level` error leaving the state unchanged. -/
theorem set_log_level_recognized_names
    (st : LoggerState) (s : String) :
    (∀ lvl : Int, logLevelMap (goToLower s) = some lvl →
        SetLogLevel st s = ({ st with logLevel := some lvl }, none)) ∧
    (logLevelMap (goToLower s) = none →
        SetLogLevel st s = (st, some ("invalid log level: " ++ goToLower s))) ∧
    ((logLevelMap (goToLower s)).isSome = true ↔
        goToLower s ∈ ["dump", "debug", "info", "warn", "error", "none"]) := by
  refine ⟨?_, ?_, ?_⟩
  · intro lvl h
    simp [SetLogLevel, h]
  · intro h
    simp [SetLogLevel, h]
  · unfold logLevelMap
    split_ifs <;> simp_all

/-- Witness for C8: `"WARN"` is accepted case-insensitively and stores
`LevelWarn`; `"bogus"` is rejected and changes nothing. -/
theorem set_log_level_recognized_names_witness :
    SetLogLevel readyState "WARN" =
      ({ readyState with logLevel := some LevelWarn }, none) ∧
    SetLogLevel readyState "bogus" =
      (readyState, some ("invalid log level: " ++ goToLower "bogus")) :=
  ⟨(set_log_level_recognized_names readyState "WARN").1 LevelWarn (by decide),
   (set_log_level_recognized_names readyState "bogus").2.1 (by decide)⟩

/-- Claim C9: a successful first `Init` stores `LevelDump`
unconditionally, overwriting whatever threshold an earlier
`SetLogLevel` call stored. -/
theorem init_overwrites_level_with_dump
    (st : LoggerState) (h : st.initOnceDone = false) :
    (Init st true true).2 = none ∧
    ((Init st true true).1).logLevel = some LevelDump := by
  simp [Init, h]

/-- Witness for C9: `SetLogLevel "error"` before `Init` stores
`LevelError`, and the subsequent successful `Init` resets the threshold
to `LevelDump`. -/
theorem init_overwrites_level_with_dump_witness :
    (SetLogLevel initialState "error").1.logLevel = some LevelError ∧
    (Init (SetLogLevel initialState "error").1 true true).2 = none ∧
    ((Init (SetLogLevel initialState "error").1 true true).1).logLevel =
      some LevelDump :=
  ⟨by decide, init_overwrites_level_with_dump _ (by decide)⟩

/-- Claim C10: a failing first `Init` (bad directory or failed open)
only consumes the `sync.Once` and initializes nothing, and from then on
every `Init` call — with any arguments — returns nil and does nothing. -/
theorem failed_first_init_disables_later_inits :
    (∀ st : LoggerState, st.initOnceDone = false →
        ((Init st false true).2 =
            some "invalid log file path: directory does not exist" ∧
          (Init st false true).1 = { st with initOnceDone := true }) ∧
        ((Init st true false).2 = some "failed to open log file" ∧
          (Init st true false).1 = { st with initOnceDone := true })) ∧
    (∀ (st : LoggerState) (d o : Bool), st.initOnceDone = true →
        Init st d o = (st, none)) := by
  constructor
  · intro st h
    refine ⟨⟨?_, ?_⟩, ⟨?_, ?_⟩⟩ <;> simp [Init, h]
  · intro st d o h
    simp [Init, h]

/-- Witness for C10: after a first `Init` against a missing directory,
a second `Init` with valid arguments returns nil and leaves the
uninitialized state untouched. -/
theorem failed_first_init_disables_later_inits_witness :
    Init (Init initialState false true).1 true true =
      ((Init initialState false true).1, none) :=
  failed_first_init_disables_later_inits.2
    (Init initialState false true).1 true true (by decide)

/-- A `Log` call that returns normally never decreases the drop
counter. -/
lemma Log_droppedLogs_le {st s : LoggerState} {level : Int} {msg : String}
    (h : Log st level msg = .ok s) : st.droppedLogs ≤ s.droppedLogs := by
  rcases hL : st.logLevel with _ | t
  · simp [Log, hL] at h
  · by_cases hlt : level < t
    · simp [Log, hL, hlt] at h
      subst h
      exact le_refl _
    · rcases hch : st.logChannel with _ | q
      · simp [Log, hL, hlt, hch] at h
        subst h
        simp
      · by_cases hlen : q.length < st.queueCap
        · simp [Log, hL, hlt, hch, hlen] at h
          subst h
          exact le_refl _
        · simp [Log, hL, hlt, hch, hlen] at h
          subst h
          simp

/-- `SetLogLevel` never touches the drop counter. -/
lemma SetLogLevel_droppedLogs (st : LoggerState) (s : String) :
    ((SetLogLevel st s).1).droppedLogs = st.droppedLogs := by
  unfold SetLogLevel
  cases h : logLevelMap (goToLower s) <;> simp [h]

/-- `Init` never touches the drop counter. -/
lemma Init_droppedLogs (st : LoggerState) (d o : Bool) :
    ((Init st d o).1).droppedLogs = st.droppedLogs := by
  unfold Init
  split_ifs <;> rfl

/-- A worker step that returns normally never touches the drop
counter. -/
lemma logWorkerStep_droppedLogs {st s : LoggerState}
    (h : logWorkerStep st = .ok s) : s.droppedLogs = st.droppedLogs := by
  rcases hch : st.logChannel with _ | q
  · simp [logWorkerStep, hch] at h
    subst h
    rfl
  · cases q with
    | nil =>
        simp [logWorkerStep, hch] at h
        subst h
        rfl
    | cons m rest =>
        rcases hw : st.logWriter with _ | buf
        · simp [logWorkerStep, hch, hw] at h
        · simp [logWorkerStep, hch, hw] at h
          subst h
          rfl

/-- A drain that returns normally never touches the drop counter. -/
lemma logWorkerDrain_droppedLogs {st s : LoggerState}
    (h : logWorkerDrain st = .ok s) : s.droppedLogs = st.droppedLogs := by
  rcases hch : st.logChannel with _ | q
  · simp [logWorkerDrain, hch] at h
    subst h
    rfl
  · cases q with
    | nil =>
        simp [logWorkerDrain, hch] at h
        subst h
        rfl
    | cons m rest =>
        rcases hw : st.logWriter with _ | buf
        · simp [logWorkerDrain, hch, hw] at h
        · simp [logWorkerDrain, hch, hw] at h
          subst h
          rfl

/-- `flush` never touches the drop counter. -/
lemma flush_droppedLogs (st : LoggerState) :
    ((flush st).1).droppedLogs = st.droppedLogs := by
  unfold flush
  cases hw : st.logWriter with
  | none => rfl
  | some buf =>
      by_cases hop : st.logFileOpen
      · rcases hda : st.diskActive with _ | f <;> simp [hop, hda]
      · simp [hop]

/-- `flushReporting` never touches the drop counter. -/
lemma flushReporting_droppedLogs (st : LoggerState) (c : String) :
    (flushReporting st c).droppedLogs = st.droppedLogs := by
  unfold flushReporting
  rcases hf : flush st with ⟨s1, e⟩
  have h1 : s1.droppedLogs = st.droppedLogs := by
    have := flush_droppedLogs st
    rw [hf] at this
    exact this
  rcases e with _ | msg <;> simp [h1]

/-- `rotateLogFile` never touches the drop counter. -/
lemma rotateLogFile_droppedLogs (st : LoggerState) (f : RotFail) :
    ((rotateLogFile st f).1).droppedLogs = st.droppedLogs := by
  unfold rotateLogFile rotateAfterClose
  by_cases hop : st.logFileOpen <;> cases f <;> simp [hop]

/-- A `Close` that returns normally never touches the drop counter. -/
lemma Close_droppedLogs {st s : LoggerState}
    (h : Close st = .ok s) : s.droppedLogs = st.droppedLogs := by
  rcases hq : st.quitChannel with _ | b
  · simp [Close, hq] at h
  · cases b
    · rcases hD : logWorkerDrain { st with quitChannel := some true } with e | st2
      · simp [Close, hq, hD] at h
      · simp [Close, hq, hD] at h
        subst h
        have h2 := logWorkerDrain_droppedLogs hD
        simp [flushReporting_droppedLogs, h2]
    · simp [Close, hq] at h

/-- No single operation decreases the drop counter. -/
lemma applyOp_droppedLogs_mono (st : LoggerState) (op : Op) :
    st.droppedLogs ≤ (applyOp st op).droppedLogs := by
  cases op with
  | opLog level msg =>
      cases h : Log st level msg with
      | ok s => simpa [applyOp, h] using Log_droppedLogs_le h
      | error e => simp [applyOp, h]
  | opSet s => exact le_of_eq (SetLogLevel_droppedLogs st s).symm
  | opInit d o => exact le_of_eq (Init_droppedLogs st d o).symm
  | opWorker =>
      cases h : logWorkerStep st with
      | ok s => simp [applyOp, h, logWorkerStep_droppedLogs h]
      | error e => simp [applyOp, h]
  | opDrain =>
      cases h : logWorkerDrain st with
      | ok s => simp [applyOp, h, logWorkerDrain_droppedLogs h]
      | error e => simp [applyOp, h]
  | opFlush => exact le_of_eq (flush_droppedLogs st).symm
  | opRotate f => exact le_of_eq (rotateLogFile_droppedLogs st f).symm
  | opClose =>
      cases h : Close st with
      | ok s => simp [applyOp, h, Close_droppedLogs h]
      | error e => simp [applyOp, h]

/-- No history of operations decreases the drop counter. -/
lemma applyOps_droppedLogs_mono (st : LoggerState) (ops : List Op) :
    st.droppedLogs ≤ (applyOps st ops).droppedLogs := by
  induction ops generalizing st with
  | nil => exact le_refl _
  | cons op rest ih =>
      exact le_trans (applyOp_droppedLogs_mono st op) (ih (applyOp st op))

/-- Claim C6: a `Log` call at or above the threshold that finds the
queue full increments the drop counter by exactly one, prints the
queue-full diagnostic to stderr, returns the record to the pool, and
returns normally; and over any history of operations the counter never
decreases, so `DumpDroppedLogs` is monotonically non-decreasing. -/
theorem log_full_queue_drops_and_counter_monotone :
    (∀ (st : LoggerState) (t level : Int) (msg : String) (q : List logMessage),
        st.logLevel = some t → t ≤ level → st.logChannel = some q →
        st.queueCap ≤ q.length →
        Log st level msg = .ok { st with
          poolGets := st.poolGets + 1
          droppedLogs := st.droppedLogs + 1
          stderrLog := st.stderrLog ++
            ["Log queue full, dropping message: " ++ msg]
          poolPuts := st.poolPuts + 1 }) ∧
    (∀ (st : LoggerState) (ops : List Op),
        DumpDroppedLogs st ≤ DumpDroppedLogs (applyOps st ops)) := by
  constructor
  · intro st t level msg q hlvl hle hch hcap
    have hlt : ¬ level < t := not_lt.mpr hle
    have hlen : ¬ q.length < st.queueCap := not_lt.mpr hcap
    simp [Log, hlvl, hlt, hch, hlen]
  · intro st ops
    exact applyOps_droppedLogs_mono st ops

/-- A logger state with capacity 2 whose queue already holds two
records, as in the saturation scenario of the spec. -/
def fullQueueState : LoggerState :=
  { readyState with
      queueCap := 2
      logChannel := some [⟨LevelInfo, "a"⟩, ⟨LevelInfo, "b"⟩] }

/-- Witness for C6: an `Error`-level call against the saturated queue
drops, counts, and reports; and a one-operation history never lowers
the counter. -/
theorem log_full_queue_drops_and_counter_monotone_witness :
    Log fullQueueState LevelError "overflow" = .ok { fullQueueState with
      poolGets := fullQueueState.poolGets + 1
      droppedLogs := fullQueueState.droppedLogs + 1
      stderrLog := fullQueueState.stderrLog ++
        ["Log queue full, dropping message: " ++ "overflow"]
      poolPuts := fullQueueState.poolPuts + 1 } ∧
    DumpDroppedLogs readyState ≤
      DumpDroppedLogs (applyOps readyState [Op.opLog LevelError "x"]) :=
  ⟨log_full_queue_drops_and_counter_monotone.1 fullQueueState LevelDump
      LevelError "overflow" [⟨LevelInfo, "a"⟩, ⟨LevelInfo, "b"⟩]
      (by decide) (by decide) (by decide) (by decide),
   log_full_queue_drops_and_counter_monotone.2 readyState
      [Op.opLog LevelError "x"]⟩

/-- The state after the first (successful) `Close` of a freshly
initialized logger. -/
def onceClosedState : LoggerState :=
  okOr (Close readyState)

/-- Counterexample for C3: the first `Close` of an initialized logger
returns normally, but the second call reaches `close(quitChannel)` on an
already-closed channel and panics — it is not a no-op. -/
theorem second_close_panics_counterexample :
    isOk (Close readyState) = true ∧
    Close onceClosedState = .error "close of closed channel" := by
  decide

/-- Claim C3 as amended: `Close` is not idempotent — in any state whose
quit channel is already closed (in particular after a completed first
`Close`), a further `Close` call panics with `close of closed channel`;
`Close` is safe to call at most once. -/
theorem close_after_close_panics
    (st : LoggerState) (h : st.quitChannel = some true) :
    Close st = .error "close of closed channel" := by
  simp [Close, h]

/-- Witness for the amended C3, at the concrete state left by the first
`Close`. -/
theorem close_after_close_panics_witness :
    Close onceClosedState = .error "close of closed channel" :=
  close_after_close_panics onceClosedState (by decide)

/-- Counterexample for C4: in the pristine process state (before any
`Init` or `SetLogLevel`), `logLevel.Load().(int)` is a type assertion
on a nil interface value and `Log` panics. -/
theorem log_before_init_panics_counterexample :
    Log initialState LevelInfo "x" =
      .error "interface conversion: interface {} is nil, not int" := by
  decide

/-- Claim C4 as amended: in every state in which a severity threshold
has been stored (every state after a successful `Init` or any
`SetLogLevel`, including after `Close`), a `Log` call returns normally
— no panic, and by the non-blocking `select` no blocking either; before
a threshold is stored, `Log` panics on the nil type assertion. -/
theorem log_returns_normally_once_level_stored
    (st : LoggerState) (t level : Int) (msg : String)
    (h : st.logLevel = some t) :
    isOk (Log st level msg) = true := by
  unfold Log
  rw [h]
  by_cases hlt : level < t
  · simp [hlt, isOk]
  · rcases hch : st.logChannel with _ | q
    · simp [hlt, hch, isOk]
    · by_cases hlen : q.length < st.queueCap <;>
        simp [hlt, hch, hlen, isOk]

/-- Witness for the amended C4: a `Log` call in the state left behind by
`Close` returns normally. -/
theorem log_returns_normally_once_level_stored_witness :
    isOk (Log onceClosedState LevelError "late") = true :=
  log_returns_normally_once_level_stored onceClosedState LevelDump
    LevelError "late" (by decide)

/-- State of the concrete C1 trace after one accepted `Log` call. -/
def c1AfterLog : LoggerState :=
  okOr (Log readyState LevelError "hello")

/-- State of the concrete C1 trace after the worker moves the record
into the `bufio` buffer. -/
def c1AfterWrite : LoggerState :=
  okOr (logWorkerStep c1AfterLog)

/-- State of the concrete C1 trace after a fully successful rotation. -/
def c1AfterRotate : LoggerState :=
  (rotateLogFile c1AfterWrite RotFail.success).1

/-- Claim C1, evaluated at the failing input: a record is accepted into
the queue, the worker hands it to the buffered writer, and then a
successful rotation closes the sink without flushing — afterwards the
record is in no file on disk, not in the fresh buffer, and the drop
counter still reads zero: the record vanished uncounted. -/
theorem rotation_discards_buffered_record_uncounted :
    Log readyState LevelError "hello" = .ok c1AfterLog ∧
    c1AfterLog.logChannel = some [⟨LevelError, "hello"⟩] ∧
    logWorkerStep c1AfterLog = .ok c1AfterWrite ∧
    c1AfterWrite.logWriter = some [⟨0, "hello"⟩] ∧
    c1AfterWrite.diskActive = some [] ∧
    (rotateLogFile c1AfterWrite RotFail.success).2 = none ∧
    c1AfterRotate.droppedLogs = 0 ∧
    c1AfterRotate.logWriter = some [] ∧
    c1AfterRotate.diskActive = some [] ∧
    c1AfterRotate.diskBackups = [[]] ∧
    (∀ f ∈ c1AfterRotate.diskBackups, ∀ l ∈ f, l.msg ≠ "hello") := by
  decide

/-- State of the concrete C5 trace after a rotation whose
open-fresh-sink step failed. -/
def c5AfterRotFail : LoggerState :=
  (rotateLogFile readyState RotFail.atOpen).1

/-- State of the concrete C5 trace after one more accepted `Log` call. -/
def c5AfterLog : LoggerState :=
  okOr (Log c5AfterRotFail LevelError "boom")

/-- Claim C5, evaluated at the failing input: when the open step of a
rotation fails the rotation is indeed aborted and reported, but it has
already nil-ed `logWriter`; the next record the worker picks up is
written through the nil `*bufio.Writer` and the worker goroutine
panics instead of failing gracefully. -/
theorem rotation_open_failure_then_worker_panics :
    (rotateLogFile readyState RotFail.atOpen).2 =
      some "error creating new log file" ∧
    c5AfterRotFail.logWriter = none ∧
    c5AfterRotFail.logFileOpen = false ∧
    isOk (Log c5AfterRotFail LevelError "boom") = true ∧
    c5AfterLog.logChannel = some [⟨LevelError, "boom"⟩] ∧
    logWorkerStep c5AfterLog =
      .error "runtime error: invalid memory address or nil pointer dereference" := by
  decide

/-- Lines already in the buffer survive the drain loop. -/
lemma writeAll_mem_of_mem (q : List logMessage) :
    ∀ (buf : List Line) (c : Nat) (l : Line),
      l ∈ buf → l ∈ (writeAll q buf c).1 := by
  induction q with
  | nil =>
      intro buf c l h
      simpa [writeAll] using h
  | cons m ms ih =>
      intro buf c l h
      simp only [writeAll]
      exact ih _ _ _ (List.mem_append_left _ h)

/-- Every record handed to the drain loop ends up as a buffered line
carrying its message. -/
lemma writeAll_covers (q : List logMessage) :
    ∀ (buf : List Line) (c : Nat) (m : logMessage), m ∈ q →
      ∃ l ∈ (writeAll q buf c).1, l.msg = m.msg := by
  induction q with
  | nil =>
      intro buf c m h
      simp at h
  | cons m0 ms ih =>
      intro buf c m h
      simp only [writeAll]
      rcases List.mem_cons.mp h with h0 | hm
      · subst h0
        exact ⟨⟨c, m.msg⟩, writeAll_mem_of_mem ms _ _ _ (by simp), rfl⟩
      · exact ih _ _ _ hm

/-- Claim C2: on a live initialized logger, `Close` returns only after
the queue has been fully drained, the buffer flushed, and the sink
handle closed; the surviving sink file contains a line for every record
that was in the queue when shutdown began, every line that was already
buffered, and every line already on disk. -/
theorem close_drains_flushes_and_closes
    (st : LoggerState) (q : List logMessage) (buf f : List Line)
    (hquit : st.quitChannel = some false)
    (hch : st.logChannel = some q)
    (hw : st.logWriter = some buf)
    (hopen : st.logFileOpen = true)
    (hf : st.diskActive = some f) :
    ∃ s, Close st = .ok s ∧
      s.logChannel = some [] ∧
      s.logWriter = none ∧
      s.logFileOpen = false ∧
      ∃ g, s.diskActive = some g ∧
        (∀ m ∈ q, ∃ l ∈ g, l.msg = m.msg) ∧
        (∀ l ∈ f, l ∈ g) ∧
        (∀ l ∈ buf, l ∈ g) := by
  rcases q with _ | ⟨m, ms⟩
  · refine ⟨{ st with
        quitChannel := some true
        logChannel := some []
        logWriter := none
        logFileOpen := false
        diskActive := some (f ++ buf) }, ?_, rfl, rfl, rfl,
      f ++ buf, rfl, ?_, ?_, ?_⟩
    · simp [Close, logWorkerDrain, flushReporting, flush, hquit, hch, hw,
        hopen, hf]
    · simp
    · intro l hl
      exact List.mem_append_left _ hl
    · intro l hl
      exact List.mem_append_right _ hl
  · refine ⟨{ st with
        quitChannel := some true
        logChannel := some []
        logWriter := none
        logFileOpen := false
        diskActive := some (f ++ (writeAll (m :: ms) buf st.clock).1)
        clock := (writeAll (m :: ms) buf st.clock).2
        poolPuts := st.poolPuts + (m :: ms).length }, ?_, rfl, rfl, rfl,
      f ++ (writeAll (m :: ms) buf st.clock).1, rfl, ?_, ?_, ?_⟩
    · simp [Close, logWorkerDrain, flushReporting, flush, hquit, hch, hw,
        hopen, hf]
    · intro mm hmm
      rcases writeAll_covers (m :: ms) buf st.clock mm hmm with ⟨l, hl, hmsg⟩
      exact ⟨l, List.mem_append_right _ hl, hmsg⟩
    · intro l hl
      exact List.mem_append_left _ hl
    · intro l hl
      exact List.mem_append_right _ (writeAll_mem_of_mem (m :: ms) _ _ _ hl)

/-- A live logger with two queued records, a buffered line, and a line
already on disk, for exercising the shutdown path. -/
def drainDemoState : LoggerState :=
  { readyState with
      logChannel := some [⟨LevelInfo, "a"⟩, ⟨LevelWarn, "b"⟩]
      logWriter := some [⟨7, "old"⟩]
      diskActive := some [⟨1, "first"⟩] }

/-- Witness for C2 at `drainDemoState`: `Close` succeeds, and the final
sink contains the two queued records, the buffered line, and the line
that was already on disk. -/
theorem close_drains_flushes_and_closes_witness :
    ∃ s, Close drainDemoState = .ok s ∧
      s.logChannel = some [] ∧
      s.logWriter = none ∧
      s.logFileOpen = false ∧
      ∃ g, s.diskActive = some g ∧
        (∀ m ∈ [(⟨LevelInfo, "a"⟩ : logMessage), ⟨LevelWarn, "b"⟩],
          ∃ l ∈ g, l.msg = m.msg) ∧
        (∀ l ∈ [(⟨1, "first"⟩ : Line)], l ∈ g) ∧
        (∀ l ∈ [(⟨7, "old"⟩ : Line)], l ∈ g) :=
  close_drains_flushes_and_closes drainDemoState
    [⟨LevelInfo, "a"⟩, ⟨LevelWarn, "b"⟩] [⟨7, "old"⟩] [⟨1, "first"⟩]
    (by decide) (by decide) (by decide) (by decide) (by decide)

end GoLogger
